import Mathlib

set_option autoImplicit false

/-! Shallow embedding of the goauth mongo layer: the concurrent decode
pipeline, the cursor-consuming FindMany and Aggregate operations, the
singleton client lifecycle (initialization, DB, Check), and the CRUD
write operations Create and Update, together with theorems checking the
specification claims against these definitions. -/

namespace GoAuth

/-- Decode outcome of one raw record fetched from a cursor: either the
decoded value of type T or the decode error message. -/
def exceptIsErr {ε α : Type} : Except ε α → Bool
  | Except.error _ => true
  | Except.ok _ => false

/-- Records dispatched to decode goroutines by the fetch loop of
concurrentDecode.  The loop fetches records in order; at each iteration it
first checks the shared error variable and breaks when an already
dispatched failing decode has been observed.  Whether a failure is visible
at iteration i depends on goroutine scheduling, modelled by the predicate
sched; a failure can be visible only after a failing record has been
dispatched (failSeen). -/
def dispatchedRecords {T : Type} (sched : Nat → Bool) :
    List (Except String T) → Nat → Bool → List (Except String T)
  | [], _, _ => []
  | r :: rs, i, failSeen =>
    if failSeen && sched i then []
    else r :: dispatchedRecords sched rs (i + 1) (failSeen || exceptIsErr r)

/-- First decode error among the dispatched records, in dispatch order;
models the shared err variable read after wg.Wait (which decode error is
stored does not matter to the claims, only whether one exists). -/
def firstError {T : Type} : List (Except String T) → Option String
  | [] => none
  | Except.error e :: _ => some e
  | Except.ok _ :: rs => firstError rs

/-- View of a decode outcome as an optional value. -/
def exceptToOption {ε α : Type} : Except ε α → Option α
  | Except.ok a => some a
  | Except.error _ => none

/-- The indexedRes map of concurrentDecode: slot i holds the decoded value
of dispatched record i when its decode succeeded, and is absent
otherwise. -/
def indexedResLookup {T : Type} (disp : List (Except String T)) (j : Nat) : Option T :=
  (disp.get? j).bind exceptToOption

/-- The final reconstruction loop of concurrentDecode: res has length
resLen and res at j is indexedRes at j (the Go zero value standing in for
an absent slot, as in the source map read). -/
def materialize {T : Type} [Inhabited T] (m : Nat → Option T) (len : Nat) : List T :=
  (List.range len).map (fun j => (m j).getD default)

/-- Model of crudDAO.concurrentDecode: dispatch decode tasks for fetched
records (stopping once a recorded failure is visible), wait for all tasks,
fail with the recorded error if any decode failed, and otherwise read
slots 0..resLen-1 of the index-keyed map in order. -/
def concurrentDecode {T : Type} [Inhabited T] (sched : Nat → Bool)
    (records : List (Except String T)) : Except String (List T) :=
  let disp := dispatchedRecords sched records 0 false
  match firstError disp with
  | some e => Except.error e
  | none =>
    let resLen := (disp.filter (fun r => !exceptIsErr r)).length
    Except.ok (materialize (indexedResLookup disp) resLen)

/-- Reference implementation used by the spec: decode the fetched records
one at a time sequentially in fetch order, aborting on the first decode
error. -/
def sequentialDecode {T : Type} : List (Except String T) → Except String (List T)
  | [] => Except.ok []
  | Except.error e :: _ => Except.error e
  | Except.ok t :: rs => (sequentialDecode rs).map (fun l => t :: l)

/-- Successfully decoded values of a record list, in order. -/
def okValues {T : Type} : List (Except String T) → List T
  | [] => []
  | Except.ok t :: rs => t :: okValues rs
  | Except.error _ :: rs => okValues rs

/-- A cursor obtained from the driver, as seen by FindMany and Aggregate
after the initial Find or Aggregate driver call succeeded: the fetched
records with their decode outcomes, the outcome of cur.Err after
iteration, and the outcome of cur.Close. -/
structure Cursor (T : Type) where
  records : List (Except String T)
  curErr : Option String
  closeErr : Option String

/-- Outcome of a FindMany or Aggregate call: the returned value or error,
and whether cur.Close was called before returning. -/
structure FindManyOutcome (T : Type) where
  result : Except String (List T)
  closeCalled : Bool

/-- Model of crudDAO.FindMany from the point where the cursor has been
obtained: run concurrentDecode, return its error on failure, else return
the cur.Err error if any, else call cur.Close and return its error if any,
else return the decoded list.  Close is called only on the last two
paths, exactly as in the source. -/
def findManyWithCursor {T : Type} [Inhabited T] (sched : Nat → Bool)
    (cur : Cursor T) : FindManyOutcome T :=
  match concurrentDecode sched cur.records with
  | Except.error e => ⟨Except.error e, false⟩
  | Except.ok res =>
    match cur.curErr with
    | some e => ⟨Except.error e, false⟩
    | none =>
      match cur.closeErr with
      | some e => ⟨Except.error e, true⟩
      | none => ⟨Except.ok res, true⟩

/-- Model of crudDAO.Aggregate from the point where the cursor has been
obtained; the source body is a verbatim duplicate of the FindMany body. -/
def aggregateWithCursor {T : Type} [Inhabited T] (sched : Nat → Bool)
    (cur : Cursor T) : FindManyOutcome T :=
  match concurrentDecode sched cur.records with
  | Except.error e => ⟨Except.error e, false⟩
  | Except.ok res =>
    match cur.curErr with
    | some e => ⟨Except.error e, false⟩
    | none =>
      match cur.closeErr with
      | some e => ⟨Except.error e, true⟩
      | none => ⟨Except.ok res, true⟩

/-- Full FindMany: the driver Find call either fails (no cursor obtained)
or yields a cursor that is then consumed. -/
def FindMany {T : Type} [Inhabited T] (sched : Nat → Bool)
    (findRes : Except String (Cursor T)) : FindManyOutcome T :=
  match findRes with
  | Except.error e => ⟨Except.error e, false⟩
  | Except.ok cur => findManyWithCursor sched cur

/-- A live mongo client produced by a successful connect and ping. -/
structure Client where
  id : Nat
deriving DecidableEq, Repr

/-- Package-level state of the mongo package: the clientInstance global
and whether the sync.Once body has already executed. -/
structure MongoState where
  clientInstance : Option Client
  onceDone : Bool
deriving DecidableEq, Repr

/-- What the environment would do if the connection procedure ran: the
connect step fails, the ping step fails, or both succeed yielding a
client. -/
inductive ConnectOutcome where
  | connectErr (e : String)
  | pingErr (e : String)
  | success (c : Client)
deriving DecidableEq, Repr

/-- Model of the initialization function guarding client creation: the
clientInstanceError variable is declared locally inside the function, so
when the sync.Once body is skipped (onceDone) the returned error is nil
regardless of how the first attempt ended; when the body runs, a connect
or ping failure is returned and the global clientInstance stays nil, and
a success stores the client. -/
def initClient (s : MongoState) (env : ConnectOutcome) : Option String × MongoState :=
  if s.onceDone then
    (none, s)
  else
    match env with
    | ConnectOutcome.connectErr e => (some e, ⟨s.clientInstance, true⟩)
    | ConnectOutcome.pingErr e => (some e, ⟨s.clientInstance, true⟩)
    | ConnectOutcome.success c => (none, ⟨some c, true⟩)

/-- A database handle returned by clientInstance.Database. -/
structure DBHandle where
  client : Client
  name : String
deriving DecidableEq, Repr

/-- The dedicated error message DB returns when initialization reported no
error but no client instance is stored. -/
def clientAbsentMsg : String := "mongo client was not initialized"

/-- Model of mongo.DB: run the guarded initialization, propagate its
error; otherwise fail with clientAbsentMsg when the global client is nil,
and otherwise return a database handle.  The Go signature returns a pair
of nullable values, modelled as a pair of options. -/
def DB (s : MongoState) (env : ConnectOutcome) (dbName : String) :
    (Option DBHandle × Option String) × MongoState :=
  match initClient s env with
  | (some e, s2) => ((none, some e), s2)
  | (none, s2) =>
    match s2.clientInstance with
    | none => ((none, some clientAbsentMsg), s2)
    | some c => ((some ⟨c, dbName⟩, none), s2)

/-- The error message Check reports when the client is nil. -/
def clientNilMsg : String := "the mongo client is nil"

/-- The wrapped message Check reports when the ping fails. -/
def checkFailMsg (e : String) : String := "the mongo check has failed: " ++ e

/-- Outcome of the ping issued by Check. -/
inductive PingOutcome where
  | ok
  | fail (e : String)
deriving DecidableEq, Repr

/-- Result of a Check call: the error list and whether a ping was
issued. -/
structure CheckOutcome where
  errs : List String
  pinged : Bool
deriving DecidableEq, Repr

/-- Model of mongo.Check: with a nil client, report exactly one error and
issue no ping; otherwise ping, reporting the wrapped failure or nothing.
The package state is returned unchanged: Check never writes it. -/
def Check (s : MongoState) (ping : PingOutcome) : CheckOutcome × MongoState :=
  match s.clientInstance with
  | none => (⟨[clientNilMsg], false⟩, s)
  | some _ =>
    match ping with
    | PingOutcome.ok => (⟨[], true⟩, s)
    | PingOutcome.fail e => (⟨[checkFailMsg e], true⟩, s)

/-- A stored document with its optional CreatedAt and UpdatedAt
timestamps; payload doubles as the unique key of the collection. -/
structure Doc where
  payload : Nat
  createdAt : Option Nat
  updatedAt : Option Nat
deriving DecidableEq, Repr, Inhabited

/-- A driver error: a duplicate-key error or any other failure. -/
inductive DriverErr where
  | dup (e : String)
  | other (e : String)
deriving DecidableEq, Repr

/-- Model of mongo.IsDuplicateKeyError. -/
def DriverErr.isDuplicateKeyError : DriverErr → Bool
  | DriverErr.dup _ => true
  | DriverErr.other _ => false

/-- The collection holds a unique index on payload: a write of payload p
conflicts when some stored document already carries p. -/
def hasUniqueConflict (store : List Doc) (p : Nat) : Bool :=
  store.any (fun d => d.payload == p)

/-- Driver model of collection.InsertOne over the unique index: a
transport failure or a duplicate key yields an error, otherwise the
document is appended unchanged. -/
def insertOne (store : List Doc) (t : Doc) (transportFail : Option String) :
    Except DriverErr (List Doc) :=
  match transportFail with
  | some e => Except.error (DriverErr.other e)
  | none =>
    if hasUniqueConflict store t.payload then
      Except.error (DriverErr.dup "duplicate key error")
    else Except.ok (store ++ [t])

/-- Result of a Create call: the Go pair (bool, error) plus the resulting
store. -/
structure CreateOutcome where
  ok : Bool
  err : Option DriverErr
  store : List Doc
deriving DecidableEq, Repr

/-- Model of crudDAO.Create: InsertOne is called on the document exactly
as given (the source performs no CreatedAt stamping); a duplicate-key
error becomes the non-error outcome (false, nil), any other error is
propagated, success returns (true, nil). -/
def Create (store : List Doc) (t : Doc) (transportFail : Option String) : CreateOutcome :=
  match insertOne store t transportFail with
  | Except.error e =>
    if e.isDuplicateKeyError then ⟨false, none, store⟩
    else ⟨false, some e, store⟩
  | Except.ok store2 => ⟨true, none, store2⟩

/-- Split a store at the first document matching the filter: the prefix
before it, the matched document, and the suffix after it. -/
def findFirst (filter : Doc → Bool) : List Doc → Option (List Doc × Doc × List Doc)
  | [] => none
  | d :: ds =>
    if filter d then some ([], d, ds)
    else (findFirst filter ds).map (fun x => (d :: x.1, x.2.1, x.2.2))

/-- Driver-reported counts of an UpdateOne call. -/
structure DriverUpdateResult where
  matchedCount : Nat
  modifiedCount : Nat
  upsertedCount : Nat
deriving DecidableEq, Repr

/-- Driver model of collection.UpdateOne with the upsert option: a
transport failure is an error; when a document matches, the patch is
applied to the first match, failing with a duplicate-key error when the
patched document collides with another stored document; when nothing
matches, an upsert inserts the synthesized document (upsertDoc) subject to
the same unique index, and without upsert nothing happens and zero counts
are reported. -/
def updateOne (store : List Doc) (filter : Doc → Bool) (patch : Doc → Doc) (upsertDoc : Doc)
    (upsert : Bool) (transportFail : Option String) :
    Except DriverErr (DriverUpdateResult × List Doc) :=
  match transportFail with
  | some e => Except.error (DriverErr.other e)
  | none =>
    match findFirst filter store with
    | some (pre, d, post) =>
      if hasUniqueConflict (pre ++ post) (patch d).payload then
        Except.error (DriverErr.dup "duplicate key error")
      else
        Except.ok (⟨1, 1, 0⟩, pre ++ patch d :: post)
    | none =>
      if upsert then
        if hasUniqueConflict store upsertDoc.payload then
          Except.error (DriverErr.dup "duplicate key error")
        else
          Except.ok (⟨0, 0, 1⟩, store ++ [upsertDoc])
      else
        Except.ok (⟨0, 0, 0⟩, store)

/-- The UpdateResult structure of the source: three outcome flags. -/
structure UpdateResult where
  NotFound : Bool
  UniqueError : Bool
  Inserted : Bool
deriving DecidableEq, Repr

/-- Result of an Update call: the UpdateResult, the Go error, and the
resulting store. -/
structure UpdateOutcome where
  res : UpdateResult
  err : Option DriverErr
  store : List Doc
deriving DecidableEq, Repr

/-- Model of crudDAO.Update: UpdateOne is called with the caller's filter
and patch exactly as given (the source performs no UpdatedAt stamping); a
duplicate-key error becomes the UniqueError outcome with nil error, any
other error is propagated with a zero UpdateResult; on success, NotFound
is reported when upsert is disabled and nothing matched, and otherwise
Inserted reflects whether the driver reported an upserted document. -/
def Update (store : List Doc) (filter : Doc → Bool) (patch : Doc → Doc) (upsertDoc : Doc)
    (withUpsert : Bool) (transportFail : Option String) : UpdateOutcome :=
  match updateOne store filter patch upsertDoc withUpsert transportFail with
  | Except.error e =>
    if e.isDuplicateKeyError then ⟨⟨false, true, false⟩, none, store⟩
    else ⟨⟨false, false, false⟩, some e, store⟩
  | Except.ok (ur, store2) =>
    if !withUpsert && ur.matchedCount == 0 then ⟨⟨true, false, false⟩, none, store2⟩
    else ⟨⟨false, false, ur.upsertedCount == 1⟩, none, store2⟩

/-- Number of outcome flags set in an UpdateResult. -/
def UpdateResult.flagCount (r : UpdateResult) : Nat :=
  (if r.NotFound then 1 else 0) + (if r.UniqueError then 1 else 0) +
    (if r.Inserted then 1 else 0)

/-! Helper lemmas about the decode pipeline. -/

theorem dispatchedRecords_all_ok {T : Type} (sched : Nat → Bool)
    (records : List (Except String T)) (i : Nat)
    (h : ∀ r ∈ records, exceptIsErr r = false) :
    dispatchedRecords sched records i false = records := by
  induction records generalizing i with
  | nil => rfl
  | cons r rs ih =>
    have hr : exceptIsErr r = false := h r (List.mem_cons_self _ _)
    simp [dispatchedRecords, hr, ih (i + 1) (fun x hx => h x (List.mem_cons_of_mem _ hx))]

theorem firstError_eq_none {T : Type} (l : List (Except String T))
    (h : ∀ r ∈ l, exceptIsErr r = false) :
    firstError l = none := by
  induction l with
  | nil => rfl
  | cons r rs ih =>
    cases r with
    | error e => exact absurd (h _ (List.mem_cons_self _ _)) (by simp [exceptIsErr])
    | ok t => simpa [firstError] using ih (fun x hx => h x (List.mem_cons_of_mem _ hx))

theorem filter_ok_all {T : Type} (l : List (Except String T))
    (h : ∀ r ∈ l, exceptIsErr r = false) :
    l.filter (fun r => !exceptIsErr r) = l := by
  refine List.filter_eq_self.mpr ?_
  intro r hr
  simp [h r hr]

theorem materialize_lookup_all_ok {T : Type} [Inhabited T] (l : List (Except String T))
    (h : ∀ r ∈ l, exceptIsErr r = false) :
    materialize (indexedResLookup l) l.length = okValues l := by
  induction l with
  | nil => rfl
  | cons r rs ih =>
    cases r with
    | error e => exact absurd (h _ (List.mem_cons_self _ _)) (by simp [exceptIsErr])
    | ok t =>
      have htail : ∀ x ∈ rs, exceptIsErr x = false :=
        fun x hx => h x (List.mem_cons_of_mem _ hx)
      have hfun : ((fun j => (indexedResLookup (Except.ok t :: rs) j).getD default) ∘ Nat.succ)
          = fun j => (indexedResLookup rs j).getD default := funext fun j => rfl
      have hmat := ih htail
      rw [materialize] at hmat ⊢
      rw [List.length_cons, List.range_succ_eq_map, List.map_cons, List.map_map, hfun, hmat]
      rfl

theorem sequentialDecode_all_ok {T : Type} (l : List (Except String T))
    (h : ∀ r ∈ l, exceptIsErr r = false) :
    sequentialDecode l = Except.ok (okValues l) := by
  induction l with
  | nil => rfl
  | cons r rs ih =>
    cases r with
    | error e => exact absurd (h _ (List.mem_cons_self _ _)) (by simp [exceptIsErr])
    | ok t =>
      have := ih (fun x hx => h x (List.mem_cons_of_mem _ hx))
      simp [sequentialDecode, okValues, this, Except.map]

theorem concurrentDecode_all_ok {T : Type} [Inhabited T] (sched : Nat → Bool)
    (records : List (Except String T)) (h : ∀ r ∈ records, exceptIsErr r = false) :
    concurrentDecode sched records = Except.ok (okValues records) := by
  rw [concurrentDecode]
  rw [dispatchedRecords_all_ok sched records 0 h]
  rw [firstError_eq_none records h, filter_ok_all records h]
  simp only [materialize_lookup_all_ok records h]

theorem firstError_isSome_of_err {T : Type} (sched : Nat → Bool)
    (records : List (Except String T)) (i : Nat)
    (h : ∃ r ∈ records, exceptIsErr r = true) :
    ∃ e, firstError (dispatchedRecords sched records i false) = some e := by
  induction records generalizing i with
  | nil =>
    rcases h with ⟨r, hr, _⟩
    cases hr
  | cons r rs ih =>
    cases r with
    | error e =>
      refine ⟨e, ?_⟩
      simp [dispatchedRecords, firstError]
    | ok t =>
      have h2 : ∃ x ∈ rs, exceptIsErr x = true := by
        rcases h with ⟨x, hx, hxe⟩
        rcases List.mem_cons.mp hx with h1 | h1
        · subst h1; simp [exceptIsErr] at hxe
        · exact ⟨x, h1, hxe⟩
      have h3 := ih (i + 1) h2
      simpa [dispatchedRecords, exceptIsErr, firstError] using h3

theorem concurrentDecode_err_of_err {T : Type} [Inhabited T] (sched : Nat → Bool)
    (records : List (Except String T)) (h : ∃ r ∈ records, exceptIsErr r = true) :
    ∃ e, concurrentDecode sched records = Except.error e := by
  obtain ⟨e, he⟩ := firstError_isSome_of_err sched records 0 h
  refine ⟨e, ?_⟩
  rw [concurrentDecode]
  simp only [he]

/-- Claim C1: for every sequence of fetched records, all decoding
successfully, the concurrent decode pipeline returns, under every
goroutine schedule, the very list obtained by decoding the records one at
a time sequentially in fetch order. -/
theorem C1_concurrentDecode_matches_sequential {T : Type} [Inhabited T] (sched : Nat → Bool)
    (records : List (Except String T)) (h : ∀ r ∈ records, exceptIsErr r = false) :
    concurrentDecode sched records = sequentialDecode records := by
  rw [concurrentDecode_all_ok sched records h, sequentialDecode_all_ok records h]

/-- Witness for C1 at a concrete three-record input. -/
theorem C1_witness :
    (∀ r ∈ ([Except.ok 1, Except.ok 2, Except.ok 3] : List (Except String Nat)),
      exceptIsErr r = false) ∧
    concurrentDecode (fun _ => true) ([Except.ok 1, Except.ok 2, Except.ok 3] :
        List (Except String Nat)) =
      sequentialDecode [Except.ok 1, Except.ok 2, Except.ok 3] :=
  ⟨by decide, C1_concurrentDecode_matches_sequential (fun _ => true) _ (by decide)⟩

/-- Claim C2: when the record at index k fails to decode, concurrentDecode
returns an error under every schedule, and hence FindMany and Aggregate
(from the cursor onward) return an error and no result list. -/
theorem C2_decode_failure_aborts {T : Type} [Inhabited T] (sched : Nat → Bool)
    (records : List (Except String T)) (k : Nat) (e0 : String)
    (h : records.get? k = some (Except.error e0)) :
    (∃ e, concurrentDecode sched records = Except.error e) ∧
    (∀ curErr closeErr : Option String,
      exceptIsErr (findManyWithCursor sched ⟨records, curErr, closeErr⟩).result = true ∧
      exceptIsErr (aggregateWithCursor sched ⟨records, curErr, closeErr⟩).result = true) := by
  have hmem : (Except.error e0 : Except String T) ∈ records := List.get?_mem h
  have hex : ∃ r ∈ records, exceptIsErr r = true := ⟨Except.error e0, hmem, rfl⟩
  obtain ⟨e, he⟩ := concurrentDecode_err_of_err sched records hex
  refine ⟨⟨e, he⟩, ?_⟩
  intro curErr closeErr
  constructor
  · rw [findManyWithCursor]
    simp only [he]
    rfl
  · rw [aggregateWithCursor]
    simp only [he]
    rfl

/-- Witness for C2 at a concrete input failing at index 1. -/
theorem C2_witness :
    ([Except.ok 1, Except.error "bad", Except.ok 2] : List (Except String Nat)).get? 1 =
      some (Except.error "bad") ∧
    (∃ e, concurrentDecode (fun _ => true)
        ([Except.ok 1, Except.error "bad", Except.ok 2] : List (Except String Nat)) =
      Except.error e) :=
  ⟨rfl, (C2_decode_failure_aborts (fun _ => true)
    ([Except.ok 1, Except.error "bad", Except.ok 2] : List (Except String Nat)) 1 "bad" rfl).1⟩

/-- Claim C5 counterexample: with a cursor whose single record fails to
decode, FindMany exits after the cursor was obtained without ever calling
Close, refuting that the cursor is closed on every exit path. -/
theorem C5_counterexample :
    (findManyWithCursor (fun _ => false)
        (⟨[Except.error "decode failed"], none, none⟩ : Cursor Nat)).closeCalled = false ∧
    exceptIsErr (findManyWithCursor (fun _ => false)
        (⟨[Except.error "decode failed"], none, none⟩ : Cursor Nat)).result = true :=
  ⟨rfl, rfl⟩

/-- Claim C5 amended: after a cursor has been obtained, FindMany and
Aggregate call Close exactly on the paths where the concurrent decode
succeeds and the cursor reports no iteration error; on the decode-failure
and cursor-error exit paths they return without closing the cursor. -/
theorem C5_close_only_on_clean_path {T : Type} [Inhabited T] (sched : Nat → Bool)
    (cur : Cursor T) :
    ((findManyWithCursor sched cur).closeCalled = true ↔
      exceptIsErr (concurrentDecode sched cur.records) = false ∧ cur.curErr = none) ∧
    ((aggregateWithCursor sched cur).closeCalled = true ↔
      exceptIsErr (concurrentDecode sched cur.records) = false ∧ cur.curErr = none) := by
  obtain ⟨records, curErr, closeErr⟩ := cur
  constructor
  · rw [findManyWithCursor]
    cases hd : concurrentDecode sched records with
    | error e => simp [exceptIsErr]
    | ok res =>
      cases curErr with
      | none =>
        cases closeErr with
        | none => simp [exceptIsErr]
        | some e => simp [exceptIsErr]
      | some e => simp [exceptIsErr]
  · rw [aggregateWithCursor]
    cases hd : concurrentDecode sched records with
    | error e => simp [exceptIsErr]
    | ok res =>
      cases curErr with
      | none =>
        cases closeErr with
        | none => simp [exceptIsErr]
        | some e => simp [exceptIsErr]
      | some e => simp [exceptIsErr]

/-- Claim C3 counterexample: from the fresh state, a first DB call whose
connection attempt fails returns that connection error, but the next DB
call returns the distinct clientAbsentMsg error rather than the identical
failure. -/
theorem C3_counterexample :
    (DB ⟨none, false⟩ (ConnectOutcome.connectErr "connection refused") "goauth").1.2 =
      some "connection refused" ∧
    (DB (DB ⟨none, false⟩ (ConnectOutcome.connectErr "connection refused") "goauth").2
        (ConnectOutcome.connectErr "connection refused") "goauth").1.2 =
      some clientAbsentMsg ∧
    (some clientAbsentMsg ≠ some "connection refused") := by
  refine ⟨rfl, rfl, ?_⟩
  decide

/-- Claim C3 amended: a failing first connection attempt is terminal: the
first caller receives the failure, the state freezes with no stored
client, and every subsequent DB call fails, but with the generic
clientAbsentMsg error instead of the identical first failure, and without
any further connection attempt (the state never changes again). -/
theorem C3_terminal_failure (e : String) (env : ConnectOutcome) (dbName : String)
    (h : env = ConnectOutcome.connectErr e ∨ env = ConnectOutcome.pingErr e) :
    (DB ⟨none, false⟩ env dbName).1 = ((none : Option DBHandle), some e) ∧
    (DB ⟨none, false⟩ env dbName).2 = ⟨none, true⟩ ∧
    (∀ env2 : ConnectOutcome, ∀ n2 : String,
      DB (⟨none, true⟩ : MongoState) env2 n2 =
        ((none, some clientAbsentMsg), ⟨none, true⟩)) := by
  rcases h with h | h <;> subst h <;> exact ⟨rfl, rfl, fun env2 n2 => rfl⟩

/-- Witness for the amended C3 at a concrete failing connect. -/
theorem C3_terminal_failure_witness :
    (DB ⟨none, false⟩ (ConnectOutcome.connectErr "refused") "g").1 =
      ((none : Option DBHandle), some "refused") ∧
    (DB ⟨none, false⟩ (ConnectOutcome.connectErr "refused") "g").2 = ⟨none, true⟩ ∧
    (∀ env2 : ConnectOutcome, ∀ n2 : String,
      DB (⟨none, true⟩ : MongoState) env2 n2 =
        ((none, some clientAbsentMsg), ⟨none, true⟩)) :=
  C3_terminal_failure "refused" (ConnectOutcome.connectErr "refused") "g" (Or.inl rfl)

/-- Claim C10: DB never returns a nil handle together with a nil error;
in the state where the guarded initialization reports no error yet no
client is stored, it returns the dedicated clientAbsentMsg error. -/
theorem C10_DB_never_nil_nil (s : MongoState) (env : ConnectOutcome) (dbName : String) :
    (((DB s env dbName).1.1.isSome = true ∧ (DB s env dbName).1.2 = none) ∨
      ((DB s env dbName).1.1 = none ∧ (DB s env dbName).1.2.isSome = true)) ∧
    ((initClient s env).1 = none → (initClient s env).2.clientInstance = none →
      (DB s env dbName).1 = (none, some clientAbsentMsg)) := by
  rcases hic : initClient s env with ⟨err, s2⟩
  cases err with
  | some e =>
    constructor
    · right
      constructor <;> simp [DB, hic]
    · intro h1
      simp [hic] at h1
  | none =>
    cases hci : s2.clientInstance with
    | none =>
      constructor
      · right
        constructor <;> simp [DB, hic, hci]
      · intro _ _
        simp [DB, hic, hci]
    | some c =>
      constructor
      · left
        constructor <;> simp [DB, hic, hci]
      · intro h1 h2
        exact Option.noConfusion h2

/-- Witness for C10 at the frozen post-failure state. -/
theorem C10_witness :
    (DB (⟨none, true⟩ : MongoState) (ConnectOutcome.success ⟨0⟩) "g").1 =
      (none, some clientAbsentMsg) :=
  (C10_DB_never_nil_nil ⟨none, true⟩ (ConnectOutcome.success ⟨0⟩) "g").2 rfl rfl

/-- Claim C9: Check reports exactly one error and issues no ping when the
client is nil; reports no error when the ping succeeds; reports at least
one error wrapping the failure when the ping fails; and never changes the
connection state. -/
theorem C9_Check_cases (s : MongoState) (ping : PingOutcome) :
    (s.clientInstance = none →
      (Check s ping).1.errs.length = 1 ∧ (Check s ping).1.pinged = false) ∧
    (∀ c : Client, s.clientInstance = some c → ping = PingOutcome.ok →
      (Check s ping).1.errs = []) ∧
    (∀ c : Client, ∀ e : String, s.clientInstance = some c → ping = PingOutcome.fail e →
      1 ≤ (Check s ping).1.errs.length ∧ checkFailMsg e ∈ (Check s ping).1.errs) ∧
    (Check s ping).2 = s := by
  obtain ⟨ci, od⟩ := s
  cases ci <;> cases ping <;>
    simp [Check, List.mem_cons]

/-- Witness for C9 in the uninitialized state. -/
theorem C9_witness :
    (Check (⟨none, false⟩ : MongoState) PingOutcome.ok).1.errs.length = 1 ∧
    (Check (⟨none, false⟩ : MongoState) PingOutcome.ok).1.pinged = false :=
  (C9_Check_cases ⟨none, false⟩ PingOutcome.ok).1 rfl

/-- Claim C8: Create returns (false, nil) and leaves the store unchanged
on a uniqueness conflict, (false, err) on any other insertion failure, and
(true, nil) on success. -/
theorem C8_Create_outcomes (store : List Doc) (t : Doc) :
    (hasUniqueConflict store t.payload = true →
      Create store t none = ⟨false, none, store⟩ ∧
      (Create store t none).store.length = store.length) ∧
    (∀ e : String, Create store t (some e) =
      ⟨false, some (DriverErr.other e), store⟩) ∧
    (hasUniqueConflict store t.payload = false →
      (Create store t none).ok = true ∧ (Create store t none).err = none) := by
  refine ⟨?_, ?_, ?_⟩
  · intro hc
    simp [Create, insertOne, hc, DriverErr.isDuplicateKeyError]
  · intro e
    simp [Create, insertOne, DriverErr.isDuplicateKeyError]
  · intro hc
    simp [Create, insertOne, hc]

/-- Witness for C8: a duplicate insert at a concrete conflicting input. -/
theorem C8_witness :
    Create ([⟨5, none, none⟩] : List Doc) ⟨5, some 1, none⟩ none =
      ⟨false, none, [⟨5, none, none⟩]⟩ ∧
    (Create ([⟨5, none, none⟩] : List Doc) ⟨5, some 1, none⟩ none).store.length =
      ([⟨5, none, none⟩] : List Doc).length :=
  (C8_Create_outcomes [⟨5, none, none⟩] ⟨5, some 1, none⟩).1 rfl

/-- Claim C4 evaluated at the failing input: Create inserts a document
whose created-at field is still unset, and Update applies the caller's
patch without stamping the updated-at field, contrary to the doc comments
of the CrudDAO interface. -/
theorem C4_no_timestamp_stamping :
    (Create ([] : List Doc) ⟨7, none, none⟩ none).store = [⟨7, none, none⟩] ∧
    (Update ([⟨7, none, none⟩] : List Doc) (fun d => d.payload == 7)
        (fun d => ⟨8, d.createdAt, d.updatedAt⟩) ⟨0, none, none⟩ false none).store =
      [⟨8, none, none⟩] :=
  ⟨rfl, rfl⟩

/-- Claim C6: Update maps a driver duplicate-key error to the UniqueError
outcome with nil error; its NotFound outcome arises exactly when the call
reaches the driver, upsert is disabled and nothing matched, in which case
nothing is created; and an upsert on an empty match inserts the document
and reports Inserted. -/
theorem C6_Update_semantics (store : List Doc) (filter : Doc → Bool) (patch : Doc → Doc)
    (upsertDoc : Doc) (withUpsert : Bool) (tf : Option String) :
    (∀ e : String,
      updateOne store filter patch upsertDoc withUpsert tf = Except.error (DriverErr.dup e) →
      Update store filter patch upsertDoc withUpsert tf = ⟨⟨false, true, false⟩, none, store⟩) ∧
    ((Update store filter patch upsertDoc withUpsert tf).res.NotFound = true ↔
      tf = none ∧ withUpsert = false ∧ findFirst filter store = none) ∧
    ((Update store filter patch upsertDoc withUpsert tf).res.NotFound = true →
      (Update store filter patch upsertDoc withUpsert tf).err = none ∧
      (Update store filter patch upsertDoc withUpsert tf).store = store) ∧
    (tf = none → withUpsert = true → findFirst filter store = none →
      hasUniqueConflict store upsertDoc.payload = false →
      (Update store filter patch upsertDoc withUpsert tf).store = store ++ [upsertDoc] ∧
      (Update store filter patch upsertDoc withUpsert tf).res.Inserted = true ∧
      (Update store filter patch upsertDoc withUpsert tf).err = none) := by
  refine ⟨?_, ?_, ?_, ?_⟩
  · intro e he
    simp [Update, he, DriverErr.isDuplicateKeyError]
  · cases tf with
    | some e =>
      simp [Update, updateOne, DriverErr.isDuplicateKeyError]
    | none =>
      cases hff : findFirst filter store with
      | some x =>
        obtain ⟨pre, d, post⟩ := x
        cases hc : hasUniqueConflict (pre ++ post) (patch d).payload with
        | true => simp [Update, updateOne, hff, hc, DriverErr.isDuplicateKeyError]
        | false => simp [Update, updateOne, hff, hc]
      | none =>
        cases withUpsert with
        | false => simp [Update, updateOne, hff]
        | true =>
          cases hc : hasUniqueConflict store upsertDoc.payload with
          | true => simp [Update, updateOne, hff, hc, DriverErr.isDuplicateKeyError]
          | false => simp [Update, updateOne, hff, hc]
  · cases tf with
    | some e =>
      simp [Update, updateOne, DriverErr.isDuplicateKeyError]
    | none =>
      cases hff : findFirst filter store with
      | some x =>
        obtain ⟨pre, d, post⟩ := x
        cases hc : hasUniqueConflict (pre ++ post) (patch d).payload with
        | true => simp [Update, updateOne, hff, hc, DriverErr.isDuplicateKeyError]
        | false => simp [Update, updateOne, hff, hc]
      | none =>
        cases withUpsert with
        | false => simp [Update, updateOne, hff]
        | true =>
          cases hc : hasUniqueConflict store upsertDoc.payload with
          | true => simp [Update, updateOne, hff, hc, DriverErr.isDuplicateKeyError]
          | false => simp [Update, updateOne, hff, hc]
  · intro h1 h2 h3 h4
    subst h1
    subst h2
    simp [Update, updateOne, h3, h4]

/-- Witness for C6: a concrete upsert into the empty store. -/
theorem C6_witness :
    (Update ([] : List Doc) (fun _ => false) id ⟨3, none, none⟩ true none).store =
      [] ++ [(⟨3, none, none⟩ : Doc)] ∧
    (Update ([] : List Doc) (fun _ => false) id ⟨3, none, none⟩ true none).res.Inserted = true ∧
    (Update ([] : List Doc) (fun _ => false) id ⟨3, none, none⟩ true none).err = none :=
  (C6_Update_semantics [] (fun _ => false) id ⟨3, none, none⟩ true none).2.2.2 rfl rfl rfl rfl

/-- Claim C7: every UpdateResult returned by Update has at most one of its
three flags set, and a successful modification (the driver succeeded with
at least one match) never carries NotFound or UniqueError. -/
theorem C7_at_most_one_flag (store : List Doc) (filter : Doc → Bool) (patch : Doc → Doc)
    (upsertDoc : Doc) (withUpsert : Bool) (tf : Option String) :
    (Update store filter patch upsertDoc withUpsert tf).res.flagCount ≤ 1 ∧
    (∀ ur : DriverUpdateResult, ∀ store2 : List Doc,
      updateOne store filter patch upsertDoc withUpsert tf = Except.ok (ur, store2) →
      1 ≤ ur.matchedCount →
      (Update store filter patch upsertDoc withUpsert tf).res.NotFound = false ∧
      (Update store filter patch upsertDoc withUpsert tf).res.UniqueError = false) := by
  constructor
  · cases hu : updateOne store filter patch upsertDoc withUpsert tf with
    | error e =>
      cases e <;> simp [Update, hu, DriverErr.isDuplicateKeyError, UpdateResult.flagCount]
    | ok p =>
      obtain ⟨ur, store2⟩ := p
      by_cases hm : (!withUpsert && ur.matchedCount == 0) = true
      · simp [Update, hu, hm, UpdateResult.flagCount]
      · simp only [Bool.not_eq_true] at hm
        cases hi : (ur.upsertedCount == 1) <;>
          simp [Update, hu, hm, hi, UpdateResult.flagCount]
  · intro ur store2 hu hm
    have hm0 : (ur.matchedCount == 0) = false := by
      cases hmc : ur.matchedCount with
      | zero => rw [hmc] at hm; exact absurd hm (by decide)
      | succ n => simp
    simp [Update, hu, hm0]

/-- Witness for C7: a concrete successful modification. -/
theorem C7_witness :
    (Update ([⟨1, none, none⟩] : List Doc) (fun d => d.payload == 1) id
        ⟨0, none, none⟩ false none).res.NotFound = false ∧
    (Update ([⟨1, none, none⟩] : List Doc) (fun d => d.payload == 1) id
        ⟨0, none, none⟩ false none).res.UniqueError = false :=
  (C7_at_most_one_flag [⟨1, none, none⟩] (fun d => d.payload == 1) id
    ⟨0, none, none⟩ false none).2 ⟨1, 1, 0⟩ [⟨1, none, none⟩] rfl (by decide)

end GoAuth
